import Mathlib

/-!
# Shallow embedding of `src/triangle-layout.js` (class `TriangleLayout`)

The JavaScript class computes pixel-space triangle vertices from a grid
cell `(row, col)` and inverts that mapping.  We embed it over `Int`
coordinates (the UI feeds `parseInt` results, i.e. integers, into the
core; the claims under verification quantify over integer inputs):

* `Coordinate`, `TriangleCoordinates` mirror the two record classes.
* The constructor's `ROW_MAP` / `COL_MAP` (ECMA-6 `Map`s, iterated in
  insertion order) are embedded as association lists in insertion order.
* `Map.get` on a possibly-missing key and the first-match value lookup
  `getMapKeyUsingValue` (which returns `undefined` when no key matches)
  are embedded with `Option`.
* In `calculateRowAndColumn` the JS recomputes the coordinates from the
  looked-up row/column and compares `JSON.stringify` output.  When a
  lookup returned `undefined` the recomputed object contains
  `NaN`/`null` fields whose serialization can never equal that of an
  all-integer input triple, so those branches are embedded as the
  sentinel result; on integer-valued objects with a fixed field order,
  `JSON.stringify` equality coincides with structural equality.
* The JS sentinel `['','']` is embedded as `none`; a real result
  `[row, col]` as `some (row, col)`.
-/

/-- Embeds class `Coordinate`: X and Y pixel values. -/
structure Coordinate where
  X : Int
  Y : Int
deriving DecidableEq, Repr

/-- Embeds class `TriangleCoordinates`: the ordered vertex triple. -/
structure TriangleCoordinates where
  V1 : Coordinate
  V2 : Coordinate
  V3 : Coordinate
deriving DecidableEq, Repr

/-- `this.ROW_CHARS = 'ABCDEF'.split('')`. -/
def ROW_CHARS : List Char := ['A', 'B', 'C', 'D', 'E', 'F']

/-- `this.MAX_COLS = 12`. -/
def MAX_COLS : Nat := 12

/-- The constructor loop `this.ROW_MAP.set(this.ROW_CHARS[i], this.SCALE * i)`
for `i = 0 .. ROW_CHARS.length - 1`, kept in insertion order. -/
def ROW_MAP (s : Int) : List (Char × Int) :=
  ROW_CHARS.enum.map (fun p => (p.2, s * (p.1 : Int)))

/-- The value stored for column key `c` by the constructor loop:
`COL_MAP.set(1, 0)`, then for `i = 2 .. MAX_COLS`,
`colVal = (i % 2 === 0) ? COL_MAP.get(i-1) : COL_MAP.get(i-1) + SCALE`. -/
def colVal (s : Int) : Nat → Int
  | 0 => 0
  | 1 => 0
  | n + 2 => if (n + 2) % 2 == 0 then colVal s (n + 1) else colVal s (n + 1) + s

/-- The constructor's `COL_MAP`: keys `1 .. MAX_COLS` in insertion order,
each bound to its `colVal`. -/
def COL_MAP (s : Int) : List (Nat × Int) :=
  (List.range MAX_COLS).map (fun k => (k + 1, colVal s (k + 1)))

/-- ECMA-6 `Map.get`: the value bound to a key, `undefined` (`none`) when
the key is absent. -/
def mapGet {α : Type} [DecidableEq α] : List (α × Int) → α → Option Int
  | [], _ => none
  | p :: rest, k => if k = p.1 then some p.2 else mapGet rest k

/-- `getMapKeyUsingValue(map, val)`: iterate keys in insertion order and
return the first whose value is `===` to `val`; `undefined` (`none`) when
none matches. -/
def getMapKeyUsingValue {α : Type} : List (α × Int) → Int → Option α
  | [], _ => none
  | p :: rest, v => if v = p.2 then some p.1 else getMapKeyUsingValue rest v

/-- `calculateCoordinates(row, col)`.  `none` embeds the JS behaviour on a
row/column absent from the maps (the lookups yield `undefined` and every
derived field is `NaN`, i.e. no integer triple results). -/
def calculateCoordinates (s : Int) (row : Char) (col : Nat) :
    Option TriangleCoordinates :=
  let isEvenColumn : Bool := col % 2 == 0
  match mapGet (COL_MAP s) col, mapGet (ROW_MAP s) row with
  | some x, some y =>
    some ⟨if isEvenColumn then ⟨x + s, y⟩ else ⟨x, y + s⟩,
          if isEvenColumn then ⟨x + s, y + s⟩ else ⟨x, y⟩,
          if isEvenColumn then ⟨x, y⟩ else ⟨x + s, y + s⟩⟩
  | _, _ => none

/-- `calculateRowAndColumn(coords)`.  The sentinel `['','']` is `none`.
When either key lookup yields `undefined`, the JS recomputation produces
`NaN`-valued fields whose `JSON.stringify` output cannot equal that of the
integer input, so the comparison fails and the sentinel is returned; those
branches are therefore `none` here. -/
def calculateRowAndColumn (s : Int) (coords : TriangleCoordinates) :
    Option (Char × Nat) :=
  let isOddColumn : Bool := coords.V1.Y > coords.V2.Y
  let ref : Coordinate := if isOddColumn then coords.V2 else coords.V3
  match getMapKeyUsingValue (COL_MAP s) ref.X,
        getMapKeyUsingValue (ROW_MAP s) ref.Y with
  | some c0, some row =>
    let col : Nat := if isOddColumn then c0 else c0 + 1
    match calculateCoordinates s row col with
    | some actualCoords => if coords = actualCoords then some (row, col) else none
    | none => none
  | _, _ => none

/-- `isValidRowAndCol(row, col)`.  The column argument reaches the guard as
the result of `parseInt`, so a non-numeric input is `NaN`, embedded as
`none` (`isNaN(col)` is then true).  A thrown string is `Except.error`. -/
def isValidRowAndCol (row : Char) (col : Option Int) : Except String Bool :=
  if ¬ ROW_CHARS.contains row then
    Except.error ("Row [" ++ String.singleton row ++ "] is not a valid row character")
  else
    match col with
    | none => Except.error "Invalid column number"
    | some c =>
      if c < 1 ∨ c > (MAX_COLS : Int) then Except.error "Invalid column number"
      else Except.ok true

/-- `JSON.stringify` of a `Coordinate` object (fixed field order X, Y). -/
def jsonCoordinate (c : Coordinate) : String :=
  "\x7b\"X\":" ++ toString c.X ++ ",\"Y\":" ++ toString c.Y ++ "\x7d"

/-- `JSON.stringify` of a `TriangleCoordinates` object. -/
def jsonTriangle (t : TriangleCoordinates) : String :=
  "\x7b\"V1\":" ++ jsonCoordinate t.V1 ++ ",\"V2\":" ++ jsonCoordinate t.V2 ++
    ",\"V3\":" ++ jsonCoordinate t.V3 ++ "\x7d"

/-- The body of `testLayout`'s doubly nested loop for one cell
`(rowKey, colKey)`: appends to the accumulated `(testOutput, errors)`
pair exactly the strings the JS appends. -/
def testLayoutStep (s : Int) (acc : String × String) (rowKey : Char)
    (colKey : Nat) : String × String :=
  let testOutput := acc.1
  let errors := acc.2
  let testOutput := testOutput ++ "-----------------------\n"
  let testOutput := testOutput ++ "Finding coordinates for [" ++
    String.singleton rowKey ++ toString colKey ++ "] ...\n"
  match calculateCoordinates s rowKey colKey with
  | some coords =>
    let testOutput := testOutput ++ "Found coordinates:\n"
    let testOutput := testOutput ++ jsonTriangle coords ++ "\n"
    let testOutput := testOutput ++
      "Using above coordinates to find row and column ...\n"
    -- `var [row, col] = this.calculateRowAndColumn(coords)`: the sentinel
    -- `['','']` destructures to row = '' and col = '', matching neither key.
    match calculateRowAndColumn s coords with
    | some (row, col) =>
      let (testOutput, errors) :=
        if row = rowKey then
          (testOutput ++ "Input row [" ++ String.singleton rowKey ++
            "] matches calculated row [" ++ String.singleton row ++ "]\n", errors)
        else
          (testOutput, errors ++ "Input [" ++ String.singleton rowKey ++
            toString colKey ++ "] does NOT match calculated row [" ++
            String.singleton row ++ "]\n")
      let (testOutput, errors) :=
        if col = colKey then
          (testOutput ++ "Input column [" ++ toString colKey ++
            "] matches calculated column [" ++ toString col ++ "]\n", errors)
        else
          (testOutput, errors ++ "Input [" ++ String.singleton rowKey ++
            toString colKey ++ "] does NOT match calculated column [" ++
            toString col ++ "]\n")
      (testOutput, errors)
    | none =>
      let errors := errors ++ "Input [" ++ String.singleton rowKey ++
        toString colKey ++ "] does NOT match calculated row []\n"
      let errors := errors ++ "Input [" ++ String.singleton rowKey ++
        toString colKey ++ "] does NOT match calculated column []\n"
      (testOutput, errors)
  | none =>
    -- Unreachable for keys drawn from the maps themselves; kept for totality.
    let errors := errors ++ "Input [" ++ String.singleton rowKey ++
      toString colKey ++ "] does NOT match calculated row []\n"
    let errors := errors ++ "Input [" ++ String.singleton rowKey ++
      toString colKey ++ "] does NOT match calculated column []\n"
    (testOutput, errors)

/-- `testLayout()`: iterate `ROW_MAP.keys()` × `COL_MAP.keys()`, accumulate
the step log and the error log, then prepend the error summary. -/
def testLayout (s : Int) : String :=
  let acc :=
    ((ROW_MAP s).map Prod.fst).foldl
      (fun acc rowKey =>
        ((COL_MAP s).map Prod.fst).foldl
          (fun acc colKey => testLayoutStep s acc rowKey colKey) acc)
      ("", "")
  let testOutput := acc.1
  let errors := acc.2
  let errors := if errors ≠ "" then "Found errors:\n" ++ errors
                else "No errors found!\n"
  errors ++ testOutput

-- Concrete sanity checks of the embedding (spec §8 scenarios, scale 10).
example : calculateCoordinates 10 'A' 1 = some ⟨⟨0, 10⟩, ⟨0, 0⟩, ⟨10, 10⟩⟩ := by
  decide
example : calculateCoordinates 10 'A' 2 = some ⟨⟨10, 0⟩, ⟨10, 10⟩, ⟨0, 0⟩⟩ := by
  decide
example : calculateCoordinates 10 'B' 3 = some ⟨⟨10, 20⟩, ⟨10, 10⟩, ⟨20, 20⟩⟩ := by
  decide
example : calculateRowAndColumn 10 ⟨⟨0, 10⟩, ⟨0, 0⟩, ⟨10, 10⟩⟩ = some ('A', 1) := by
  decide
example : calculateRowAndColumn 10 ⟨⟨1, 1⟩, ⟨2, 2⟩, ⟨3, 3⟩⟩ = none := by decide

/-! ## Closed forms of the constructor maps -/

lemma ROW_MAP_eq (s : Int) : ROW_MAP s =
    [('A', 0), ('B', s), ('C', 2 * s), ('D', 3 * s), ('E', 4 * s), ('F', 5 * s)] := by
  show [('A', s * 0), ('B', s * 1), ('C', s * 2), ('D', s * 3), ('E', s * 4),
        ('F', s * 5)] = _
  have h0 : s * 0 = 0 := by ring
  have h1 : s * 1 = s := by ring
  have h2 : s * 2 = 2 * s := by ring
  have h3 : s * 3 = 3 * s := by ring
  have h4 : s * 4 = 4 * s := by ring
  have h5 : s * 5 = 5 * s := by ring
  rw [h0, h1, h2, h3, h4, h5]

lemma COL_MAP_eq (s : Int) : COL_MAP s =
    [(1, 0), (2, 0), (3, s), (4, s), (5, 2 * s), (6, 2 * s), (7, 3 * s), (8, 3 * s),
     (9, 4 * s), (10, 4 * s), (11, 5 * s), (12, 5 * s)] := by
  show [(1, colVal s 1), (2, colVal s 2), (3, colVal s 3), (4, colVal s 4),
        (5, colVal s 5), (6, colVal s 6), (7, colVal s 7), (8, colVal s 8),
        (9, colVal s 9), (10, colVal s 10), (11, colVal s 11), (12, colVal s 12)] = _
  have e : ∀ k, colVal s (k + 2) = if (k + 2) % 2 == 0 then colVal s (k + 1)
      else colVal s (k + 1) + s := fun _ => rfl
  simp only [colVal, e]
  norm_num
  and_intros <;> ring

/-! ## Lookup facts used by the inverse, for a positive scale -/

/-- Closed form of the column map: column i is bound to
`scale * ((i - 1) / 2)`. -/
lemma mapGet_COL_closed (s : Int) (c : Nat) (hc1 : 1 ≤ c) (hc2 : c ≤ 12) :
    mapGet (COL_MAP s) c = some (s * (((c - 1) / 2 : Nat) : Int)) := by
  interval_cases c <;> rw [COL_MAP_eq] <;> simp [mapGet] <;> ring

/-- First-match lookup of the value `scale * j` in the column map returns
the odd column `2 * j + 1`. -/
lemma colLookup (s : Int) (hs : 0 < s) (j : Nat) (hj : j ≤ 5) :
    getMapKeyUsingValue (COL_MAP s) (s * (j : Int)) = some (2 * j + 1) := by
  rw [COL_MAP_eq]
  simp only [getMapKeyUsingValue]
  interval_cases j <;> split_ifs <;> simp_all <;> omega

/-- For each valid column key the map holds its value, and the first-match
value lookup returns the odd member of the pair sharing that value. -/
lemma colMapFacts (s : Int) (hs : 0 < s) (c : Nat) (hc1 : 1 ≤ c) (hc2 : c ≤ 12) :
    ∃ x, mapGet (COL_MAP s) c = some x ∧
      getMapKeyUsingValue (COL_MAP s) x = some (2 * ((c - 1) / 2) + 1) :=
  ⟨s * (((c - 1) / 2 : Nat) : Int), mapGet_COL_closed s c hc1 hc2,
    colLookup s hs ((c - 1) / 2) (by omega)⟩

/-- For each valid row character the map holds its value, and the value
lookup recovers exactly that character. -/
lemma rowMapFacts (s : Int) (hs : 0 < s) (r : Char) (hr : r ∈ ROW_CHARS) :
    ∃ y, mapGet (ROW_MAP s) r = some y ∧
      getMapKeyUsingValue (ROW_MAP s) y = some r := by
  have hr' : r = 'A' ∨ r = 'B' ∨ r = 'C' ∨ r = 'D' ∨ r = 'E' ∨ r = 'F' := by
    simpa [ROW_CHARS] using hr
  rcases hr' with rfl | rfl | rfl | rfl | rfl | rfl <;>
    refine ⟨_, by rw [ROW_MAP_eq]; rfl, ?_⟩ <;>
    rw [ROW_MAP_eq] <;> simp only [getMapKeyUsingValue] <;>
    split_ifs <;> simp_all

/-! ## Forward map on valid cells, and the generic round trip -/

/-- `calculateCoordinates` on a row/column present in the maps, split by
column parity. -/
lemma calculateCoordinates_of_gets (s : Int) (r : Char) (c : Nat) (x y : Int)
    (hx : mapGet (COL_MAP s) c = some x) (hy : mapGet (ROW_MAP s) r = some y) :
    calculateCoordinates s r c =
      some (if c % 2 = 0 then ⟨⟨x + s, y⟩, ⟨x + s, y + s⟩, ⟨x, y⟩⟩
            else ⟨⟨x, y + s⟩, ⟨x, y⟩, ⟨x + s, y + s⟩⟩) := by
  simp only [calculateCoordinates, hx, hy]
  by_cases h : c % 2 = 0 <;> simp [h]

/-- The round trip on one valid cell, given the lookup facts. -/
lemma roundTrip_aux (s : Int) (hs : 0 < s) (r : Char) (c : Nat) (x y : Int)
    (hx : mapGet (COL_MAP s) c = some x) (hy : mapGet (ROW_MAP s) r = some y)
    (hkx : getMapKeyUsingValue (COL_MAP s) x = some (2 * ((c - 1) / 2) + 1))
    (hky : getMapKeyUsingValue (ROW_MAP s) y = some r)
    (hc1 : 1 ≤ c) (hc2 : c ≤ 12) :
    ∃ tc, calculateCoordinates s r c = some tc ∧
      calculateRowAndColumn s tc = some (r, c) := by
  have hfwd := calculateCoordinates_of_gets s r c x y hx hy
  by_cases hpar : c % 2 = 0
  · refine ⟨⟨⟨x + s, y⟩, ⟨x + s, y + s⟩, ⟨x, y⟩⟩, by rw [hfwd]; simp [hpar], ?_⟩
    have hnot : ¬ (y > y + s) := by omega
    have hcol : 2 * ((c - 1) / 2) + 1 + 1 = c := by omega
    simp only [calculateRowAndColumn]
    simp only [hnot, decide_False, Bool.false_eq_true, if_false, hkx, hky, hcol, hfwd]
    simp [hpar]
  · refine ⟨⟨⟨x, y + s⟩, ⟨x, y⟩, ⟨x + s, y + s⟩⟩, by rw [hfwd]; simp [hpar], ?_⟩
    have hgt : y + s > y := by omega
    have hcol : 2 * ((c - 1) / 2) + 1 = c := by omega
    simp only [calculateRowAndColumn]
    simp only [hgt, decide_True, if_true, hkx, hky, hcol, hfwd]
    simp [hpar]

/-! ## Claim theorems -/

/-- Claim C1: for every row in 'A'..'F' and every column in [1,12], and any
positive integer scale, applying `calculateRowAndColumn` to the output of
`calculateCoordinates` recovers the cell exactly. -/
theorem claim1_round_trip (s : Int) (hs : 0 < s) (r : Char) (hr : r ∈ ROW_CHARS)
    (c : Nat) (hc1 : 1 ≤ c) (hc2 : c ≤ 12) :
    ∃ tc, calculateCoordinates s r c = some tc ∧
      calculateRowAndColumn s tc = some (r, c) := by
  obtain ⟨x, hx, hkx⟩ := colMapFacts s hs c hc1 hc2
  obtain ⟨y, hy, hky⟩ := rowMapFacts s hs r hr
  exact roundTrip_aux s hs r c x y hx hy hkx hky hc1 hc2

/-- Witness for C1 at scale 10, row 'A', column 1. -/
theorem claim1_round_trip_witness :
    (0 : Int) < 10 ∧ 'A' ∈ ROW_CHARS ∧ 1 ≤ 1 ∧ 1 ≤ 12 ∧
      (∃ tc, calculateCoordinates 10 'A' 1 = some tc ∧
        calculateRowAndColumn 10 tc = some ('A', 1)) :=
  ⟨by decide, by decide, by decide, by decide,
    claim1_round_trip 10 (by decide) 'A' (by decide) 1 (by decide) (by decide)⟩

/-- Claim C2: on every valid cell, with x the column origin and y the row
origin, `calculateCoordinates` returns exactly the even/odd vertex triples
of the spec; in particular at scale 10 it maps ('B', 3) to
V1=(10,20), V2=(10,10), V3=(20,20). -/
theorem claim2_forward_formula (s : Int) (hs : 0 < s) (r : Char)
    (hr : r ∈ ROW_CHARS) (c : Nat) (hc1 : 1 ≤ c) (hc2 : c ≤ 12) :
    (∃ x y, mapGet (COL_MAP s) c = some x ∧ mapGet (ROW_MAP s) r = some y ∧
      calculateCoordinates s r c =
        (if c % 2 = 0 then some ⟨⟨x + s, y⟩, ⟨x + s, y + s⟩, ⟨x, y⟩⟩
         else some ⟨⟨x, y + s⟩, ⟨x, y⟩, ⟨x + s, y + s⟩⟩))
    ∧ calculateCoordinates 10 'B' 3 = some ⟨⟨10, 20⟩, ⟨10, 10⟩, ⟨20, 20⟩⟩ := by
  obtain ⟨x, hx, -⟩ := colMapFacts s hs c hc1 hc2
  obtain ⟨y, hy, -⟩ := rowMapFacts s hs r hr
  refine ⟨⟨x, y, hx, hy, ?_⟩, by decide⟩
  rw [calculateCoordinates_of_gets s r c x y hx hy, apply_ite some]

/-- Witness for C2 at scale 10, row 'B', column 3. -/
theorem claim2_forward_formula_witness :
    (0 : Int) < 10 ∧ 'B' ∈ ROW_CHARS ∧ 1 ≤ 3 ∧ 3 ≤ 12 ∧
      ((∃ x y, mapGet (COL_MAP 10) 3 = some x ∧ mapGet (ROW_MAP 10) 'B' = some y ∧
        calculateCoordinates 10 'B' 3 =
          (if 3 % 2 = 0 then some ⟨⟨x + 10, y⟩, ⟨x + 10, y + 10⟩, ⟨x, y⟩⟩
           else some ⟨⟨x, y + 10⟩, ⟨x, y⟩, ⟨x + 10, y + 10⟩⟩))
      ∧ calculateCoordinates 10 'B' 3 = some ⟨⟨10, 20⟩, ⟨10, 10⟩, ⟨20, 20⟩⟩) :=
  ⟨by decide, by decide, by decide, by decide,
    claim2_forward_formula 10 (by decide) 'B' (by decide) 3 (by decide) (by decide)⟩

/-- Claim C5: two distinct valid cells always get distinct vertex triples. -/
theorem claim5_injective (s : Int) (hs : 0 < s)
    (r1 : Char) (hr1 : r1 ∈ ROW_CHARS) (c1 : Nat) (hc11 : 1 ≤ c1) (hc12 : c1 ≤ 12)
    (r2 : Char) (hr2 : r2 ∈ ROW_CHARS) (c2 : Nat) (hc21 : 1 ≤ c2) (hc22 : c2 ≤ 12)
    (hne : (r1, c1) ≠ (r2, c2)) :
    ∀ t1 t2, calculateCoordinates s r1 c1 = some t1 →
      calculateCoordinates s r2 c2 = some t2 → t1 ≠ t2 := by
  intro t1 t2 h1 h2 heq
  obtain ⟨x1, hx1, hkx1⟩ := colMapFacts s hs c1 hc11 hc12
  obtain ⟨y1, hy1, hky1⟩ := rowMapFacts s hs r1 hr1
  obtain ⟨u1, hu1, hb1⟩ := roundTrip_aux s hs r1 c1 x1 y1 hx1 hy1 hkx1 hky1 hc11 hc12
  obtain ⟨x2, hx2, hkx2⟩ := colMapFacts s hs c2 hc21 hc22
  obtain ⟨y2, hy2, hky2⟩ := rowMapFacts s hs r2 hr2
  obtain ⟨u2, hu2, hb2⟩ := roundTrip_aux s hs r2 c2 x2 y2 hx2 hy2 hkx2 hky2 hc21 hc22
  rw [h1] at hu1
  rw [h2] at hu2
  cases hu1
  cases hu2
  rw [heq, hb2] at hb1
  exact hne (by injection hb1 with h; exact h.symm ▸ rfl)

/-- Witness for C5: cells ('A',1) and ('A',2) at scale 10. -/
theorem claim5_injective_witness :
    (0 : Int) < 10 ∧ 'A' ∈ ROW_CHARS ∧ 1 ≤ 1 ∧ 1 ≤ 12 ∧ 1 ≤ 2 ∧ 2 ≤ 12 ∧
      (('A', 1) : Char × Nat) ≠ ('A', 2) ∧
      calculateCoordinates 10 'A' 1 = some ⟨⟨0, 10⟩, ⟨0, 0⟩, ⟨10, 10⟩⟩ ∧
      calculateCoordinates 10 'A' 2 = some ⟨⟨10, 0⟩, ⟨10, 10⟩, ⟨0, 0⟩⟩ ∧
      (⟨⟨0, 10⟩, ⟨0, 0⟩, ⟨10, 10⟩⟩ : TriangleCoordinates) ≠ ⟨⟨10, 0⟩, ⟨10, 10⟩, ⟨0, 0⟩⟩ :=
  ⟨by decide, by decide, by decide, by decide, by decide, by decide, by decide,
    by decide, by decide,
    claim5_injective 10 (by decide) 'A' (by decide) 1 (by decide) (by decide)
      'A' (by decide) 2 (by decide) (by decide) (by decide)
      ⟨⟨0, 10⟩, ⟨0, 0⟩, ⟨10, 10⟩⟩ ⟨⟨10, 0⟩, ⟨10, 10⟩, ⟨0, 0⟩⟩
      (by decide) (by decide)⟩

/-- Counterexample to claim C6: at scale 10 the even cell ('A', 2) yields
V1=(10,0) and V2=(10,10), whose Y values are NOT equal — even columns share
an X between V1 and V2, not a Y. -/
theorem claim6_counterexample :
    2 % 2 = 0 ∧
      calculateCoordinates 10 'A' 2 = some ⟨⟨10, 0⟩, ⟨10, 10⟩, ⟨0, 0⟩⟩ ∧
      ¬ ((⟨⟨10, 0⟩, ⟨10, 10⟩, ⟨0, 0⟩⟩ : TriangleCoordinates).V1.Y =
          (⟨⟨10, 0⟩, ⟨10, 10⟩, ⟨0, 0⟩⟩ : TriangleCoordinates).V2.Y) := by
  decide

/-- Claim C6 as amended: for every valid cell, odd columns give
V1.Y > V2.Y, and even columns give V1.Y < V2.Y with V1 and V2 sharing
their X value (not their Y value as the original claim stated). -/
theorem claim6_amended_parity_invariant (s : Int) (hs : 0 < s) (r : Char)
    (hr : r ∈ ROW_CHARS) (c : Nat) (hc1 : 1 ≤ c) (hc2 : c ≤ 12) :
    ∀ t, calculateCoordinates s r c = some t →
      (c % 2 = 1 → t.V1.Y > t.V2.Y) ∧
      (c % 2 = 0 → t.V1.Y < t.V2.Y ∧ t.V1.X = t.V2.X) := by
  intro t ht
  obtain ⟨x, hx, -⟩ := colMapFacts s hs c hc1 hc2
  obtain ⟨y, hy, -⟩ := rowMapFacts s hs r hr
  rw [calculateCoordinates_of_gets s r c x y hx hy] at ht
  by_cases hpar : c % 2 = 0 <;> simp [hpar] at ht <;> subst ht <;>
    constructor <;> intro h <;> first | omega | simp_all

/-- Witness for the amended C6 at scale 10, row 'A', column 2. -/
theorem claim6_amended_parity_invariant_witness :
    (0 : Int) < 10 ∧ 'A' ∈ ROW_CHARS ∧ 1 ≤ 2 ∧ 2 ≤ 12 ∧
      calculateCoordinates 10 'A' 2 = some ⟨⟨10, 0⟩, ⟨10, 10⟩, ⟨0, 0⟩⟩ ∧
      ((2 % 2 = 1 → (⟨⟨10, 0⟩, ⟨10, 10⟩, ⟨0, 0⟩⟩ : TriangleCoordinates).V1.Y >
          (⟨⟨10, 0⟩, ⟨10, 10⟩, ⟨0, 0⟩⟩ : TriangleCoordinates).V2.Y) ∧
       (2 % 2 = 0 → (⟨⟨10, 0⟩, ⟨10, 10⟩, ⟨0, 0⟩⟩ : TriangleCoordinates).V1.Y <
          (⟨⟨10, 0⟩, ⟨10, 10⟩, ⟨0, 0⟩⟩ : TriangleCoordinates).V2.Y ∧
          (⟨⟨10, 0⟩, ⟨10, 10⟩, ⟨0, 0⟩⟩ : TriangleCoordinates).V1.X =
          (⟨⟨10, 0⟩, ⟨10, 10⟩, ⟨0, 0⟩⟩ : TriangleCoordinates).V2.X)) :=
  ⟨by decide, by decide, by decide, by decide, by decide,
    claim6_amended_parity_invariant 10 (by decide) 'A' (by decide) 2
      (by decide) (by decide) ⟨⟨10, 0⟩, ⟨10, 10⟩, ⟨0, 0⟩⟩ (by decide)⟩

/-- Claim C7: for every valid cell, the produced triple satisfies
V1.Y > V2.Y if and only if the column is odd. -/
theorem claim7_parity_consistency (s : Int) (hs : 0 < s) (r : Char)
    (hr : r ∈ ROW_CHARS) (c : Nat) (hc1 : 1 ≤ c) (hc2 : c ≤ 12) :
    ∀ t, calculateCoordinates s r c = some t →
      (t.V1.Y > t.V2.Y ↔ c % 2 = 1) := by
  intro t ht
  obtain ⟨x, hx, -⟩ := colMapFacts s hs c hc1 hc2
  obtain ⟨y, hy, -⟩ := rowMapFacts s hs r hr
  rw [calculateCoordinates_of_gets s r c x y hx hy] at ht
  by_cases hpar : c % 2 = 0 <;> simp [hpar] at ht <;> subst ht <;>
    simp <;> omega

/-- Witness for C7 at scale 10, row 'A', column 1. -/
theorem claim7_parity_consistency_witness :
    (0 : Int) < 10 ∧ 'A' ∈ ROW_CHARS ∧ 1 ≤ 1 ∧ 1 ≤ 12 ∧
      calculateCoordinates 10 'A' 1 = some ⟨⟨0, 10⟩, ⟨0, 0⟩, ⟨10, 10⟩⟩ ∧
      ((⟨⟨0, 10⟩, ⟨0, 0⟩, ⟨10, 10⟩⟩ : TriangleCoordinates).V1.Y >
        (⟨⟨0, 10⟩, ⟨0, 0⟩, ⟨10, 10⟩⟩ : TriangleCoordinates).V2.Y ↔ 1 % 2 = 1) :=
  ⟨by decide, by decide, by decide, by decide, by decide,
    claim7_parity_consistency 10 (by decide) 'A' (by decide) 1
      (by decide) (by decide) ⟨⟨0, 10⟩, ⟨0, 0⟩, ⟨10, 10⟩⟩ (by decide)⟩

/-! ## Inversion facts about `calculateRowAndColumn` -/

/-- A successful first-match lookup in `COL_MAP` always returns an odd
column between 1 and 11: the even member of each pair shares its value with
the odd member just before it, so it is never the first match. -/
lemma colKey_of_lookup (s v : Int) (k : Nat)
    (h : getMapKeyUsingValue (COL_MAP s) v = some k) :
    1 ≤ k ∧ k ≤ 11 ∧ k % 2 = 1 := by
  rw [COL_MAP_eq] at h
  simp only [getMapKeyUsingValue] at h
  split_ifs at h <;> simp_all <;> omega

/-- A successful lookup in `ROW_MAP` returns one of the six row characters. -/
lemma rowKey_of_lookup (s v : Int) (r : Char)
    (h : getMapKeyUsingValue (ROW_MAP s) v = some r) : r ∈ ROW_CHARS := by
  rw [ROW_MAP_eq] at h
  simp only [getMapKeyUsingValue] at h
  split_ifs at h <;> simp_all <;> subst h <;> decide

/-- Every triple produced by `calculateCoordinates` has V1 and V2 sharing
their X value. -/
lemma forward_V1X_eq_V2X (s : Int) (r : Char) (c : Nat) (t : TriangleCoordinates)
    (h : calculateCoordinates s r c = some t) : t.V1.X = t.V2.X := by
  unfold calculateCoordinates at h
  split at h
  · cases hb : (c % 2 == 0) <;> simp only [hb] at h <;>
      cases h <;> rfl
  · cases h

/-- Soundness of the inverse: a non-sentinel result names a valid cell whose
forward computation reproduces the input exactly. -/
lemma calcRowCol_sound (s : Int) (coords : TriangleCoordinates) (r : Char)
    (c : Nat) (h : calculateRowAndColumn s coords = some (r, c)) :
    r ∈ ROW_CHARS ∧ 1 ≤ c ∧ c ≤ 12 ∧ calculateCoordinates s r c = some coords := by
  simp only [calculateRowAndColumn] at h
  split at h
  case h_2 => cases h
  case h_1 c0 row heqc heqr =>
    split at h
    case h_2 => cases h
    case h_1 actual heqf =>
      split at h
      case isFalse => cases h
      case isTrue hcoords =>
        injection h with h'
        rw [Prod.mk.injEq] at h'
        obtain ⟨hre, hce⟩ := h'
        obtain ⟨hk1, hk2, -⟩ := colKey_of_lookup s _ c0 heqc
        have hrow := rowKey_of_lookup s _ row heqr
        subst hre
        subst hcoords
        rw [hce] at heqf
        refine ⟨hrow, ?_, ?_, heqf⟩ <;>
          by_cases hb : coords.V1.Y > coords.V2.Y <;>
          simp [hb] at hce <;> omega

/-- Claim C3: `calculateRowAndColumn` is total over integer coordinate
triples (it is a Lean function, hence never raises); it returns the
sentinel (`none`, embedding `['','']`) exactly when the input is not the
output of `calculateCoordinates` on any valid cell; a non-sentinel result
names a valid cell whose recomputed vertices reproduce the input exactly;
and the triple V1=(1,1), V2=(2,2), V3=(3,3) yields the sentinel. -/
theorem claim3_inverse_totality (s : Int) (hs : 0 < s) :
    (∀ coords : TriangleCoordinates,
      (calculateRowAndColumn s coords = none ↔
        ¬ ∃ r c, r ∈ ROW_CHARS ∧ 1 ≤ c ∧ c ≤ 12 ∧
          calculateCoordinates s r c = some coords) ∧
      (∀ r c, calculateRowAndColumn s coords = some (r, c) →
        r ∈ ROW_CHARS ∧ 1 ≤ c ∧ c ≤ 12 ∧
          calculateCoordinates s r c = some coords))
    ∧ calculateRowAndColumn s ⟨⟨1, 1⟩, ⟨2, 2⟩, ⟨3, 3⟩⟩ = none := by
  have main : ∀ coords : TriangleCoordinates,
      (calculateRowAndColumn s coords = none ↔
        ¬ ∃ r c, r ∈ ROW_CHARS ∧ 1 ≤ c ∧ c ≤ 12 ∧
          calculateCoordinates s r c = some coords) ∧
      (∀ r c, calculateRowAndColumn s coords = some (r, c) →
        r ∈ ROW_CHARS ∧ 1 ≤ c ∧ c ≤ 12 ∧
          calculateCoordinates s r c = some coords) := by
    intro coords
    constructor
    · constructor
      · intro hnone ⟨r, c, hr, hc1, hc2, hfwd⟩
        obtain ⟨x, hx, hkx⟩ := colMapFacts s hs c hc1 hc2
        obtain ⟨y, hy, hky⟩ := rowMapFacts s hs r hr
        obtain ⟨tc, htc, hback⟩ :=
          roundTrip_aux s hs r c x y hx hy hkx hky hc1 hc2
        rw [hfwd] at htc
        cases htc
        rw [hnone] at hback
        cases hback
      · intro hno
        cases hres : calculateRowAndColumn s coords with
        | none => rfl
        | some p =>
          obtain ⟨r, c⟩ := p
          obtain ⟨hr, hc1, hc2, hfwd⟩ := calcRowCol_sound s coords r c hres
          exact absurd ⟨r, c, hr, hc1, hc2, hfwd⟩ hno
    · intro r c hres
      exact calcRowCol_sound s coords r c hres
  refine ⟨main, (main ⟨⟨1, 1⟩, ⟨2, 2⟩, ⟨3, 3⟩⟩).1.mpr ?_⟩
  rintro ⟨r, c, hr, hc1, hc2, hfwd⟩
  have := forward_V1X_eq_V2X s r c ⟨⟨1, 1⟩, ⟨2, 2⟩, ⟨3, 3⟩⟩ hfwd
  simp at this

/-- Witness for C3 at scale 10. -/
theorem claim3_inverse_totality_witness :
    (0 : Int) < 10 ∧
      ((∀ coords : TriangleCoordinates,
        (calculateRowAndColumn 10 coords = none ↔
          ¬ ∃ r c, r ∈ ROW_CHARS ∧ 1 ≤ c ∧ c ≤ 12 ∧
            calculateCoordinates 10 r c = some coords) ∧
        (∀ r c, calculateRowAndColumn 10 coords = some (r, c) →
          r ∈ ROW_CHARS ∧ 1 ≤ c ∧ c ≤ 12 ∧
            calculateCoordinates 10 r c = some coords))
      ∧ calculateRowAndColumn 10 ⟨⟨1, 1⟩, ⟨2, 2⟩, ⟨3, 3⟩⟩ = none) :=
  ⟨by decide, claim3_inverse_totality 10 (by decide)⟩

/-! ## Validation guard and constructor-map claims -/

/-- The invalid-row message never coincides with the invalid-column
message, whatever the offending row character is. -/
lemma rowMsg_ne_colMsg (r : Char) :
    ("Row [" ++ String.singleton r ++ "] is not a valid row character") ≠
      "Invalid column number" := by
  intro h
  have hd := congrArg String.data h
  simp [String.singleton] at hd

/-- Claim C8: `ROW_MAP` sends the i-th row character to `i * scale`, and
`COL_MAP` sends column 1 to 0, repeats the previous value on even columns,
adds the scale on odd columns `3..11`, and in closed form sends column i to
`scale * ((i-1)/2)`. -/
theorem claim8_construction_maps (s : Int) (hs : 0 < s) :
    (∀ i r, ROW_CHARS.get? i = some r → mapGet (ROW_MAP s) r = some (s * i))
    ∧ mapGet (COL_MAP s) 1 = some 0
    ∧ (∀ i, 2 ≤ i → i ≤ 12 → i % 2 = 0 →
        mapGet (COL_MAP s) i = mapGet (COL_MAP s) (i - 1))
    ∧ (∀ i, 3 ≤ i → i ≤ 11 → i % 2 = 1 → ∀ v,
        mapGet (COL_MAP s) (i - 1) = some v →
        mapGet (COL_MAP s) i = some (v + s))
    ∧ (∀ i, 1 ≤ i → i ≤ 12 →
        mapGet (COL_MAP s) i = some (s * (((i - 1) / 2 : Nat) : Int))) := by
  have closed : ∀ i, 1 ≤ i → i ≤ 12 →
      mapGet (COL_MAP s) i = some (s * (((i - 1) / 2 : Nat) : Int)) :=
    fun i h1 h2 => mapGet_COL_closed s i h1 h2
  refine ⟨?_, ?_, ?_, ?_, closed⟩
  · intro i r h
    match i, h with
    | 0, h => cases h; rw [ROW_MAP_eq]; show some 0 = some (s * 0); rw [mul_zero]
    | 1, h => cases h; rw [ROW_MAP_eq]; show some s = some (s * 1); rw [mul_one]
    | 2, h => cases h; rw [ROW_MAP_eq]; show some (2 * s) = some (s * 2)
              rw [mul_comm]
    | 3, h => cases h; rw [ROW_MAP_eq]; show some (3 * s) = some (s * 3)
              rw [mul_comm]
    | 4, h => cases h; rw [ROW_MAP_eq]; show some (4 * s) = some (s * 4)
              rw [mul_comm]
    | 5, h => cases h; rw [ROW_MAP_eq]; show some (5 * s) = some (s * 5)
              rw [mul_comm]
  · have h1 := closed 1 (by omega) (by omega)
    simpa using h1
  · intro i h2 h12 hev
    rw [closed i (by omega) h12, closed (i - 1) (by omega) (by omega)]
    have : (i - 1) / 2 = (i - 1 - 1) / 2 := by omega
    rw [this]
  · intro i h3 h11 hodd v hv
    rw [closed (i - 1) (by omega) (by omega)] at hv
    rw [closed i (by omega) (by omega)]
    injection hv with hv'
    subst hv'
    have harith : (i - 1) / 2 = (i - 1 - 1) / 2 + 1 := by omega
    rw [harith]
    push_cast
    ring

/-- Witness for C8 at scale 10, instantiating the row clause at 'B' and
the column clauses at columns 1, 4, 5. -/
theorem claim8_construction_maps_witness :
    (0 : Int) < 10 ∧
      ROW_CHARS.get? 1 = some 'B' ∧ mapGet (ROW_MAP 10) 'B' = some (10 * 1) ∧
      mapGet (COL_MAP 10) 1 = some 0 ∧
      mapGet (COL_MAP 10) 4 = mapGet (COL_MAP 10) 3 ∧
      mapGet (COL_MAP 10) 4 = some 10 ∧
      mapGet (COL_MAP 10) 5 = some (10 + 10) ∧
      mapGet (COL_MAP 10) 9 = some (10 * (((9 - 1) / 2 : Nat) : Int)) := by
  have h := claim8_construction_maps 10 (by decide)
  refine ⟨by decide, by decide, h.1 1 'B' (by decide), h.2.1, ?_, by decide,
    h.2.2.2.1 5 (by decide) (by decide) (by decide) 10 (by decide),
    h.2.2.2.2 9 (by decide) (by decide)⟩
  have := h.2.2.1 4 (by decide) (by decide) (by decide)
  simpa using this

/-- Claim C9: the guard fails with the invalid-row error exactly when the
row is not among the six characters; for a valid row it fails with the
invalid-column error exactly when the column is not a number (NaN) or
outside [1,12]; otherwise it returns true.  Concrete cases: ('Z',1) row
error, ('A',13) and ('A',0) column error, ('A',1) true. -/
theorem claim9_validation_guard :
    (∀ r col, isValidRowAndCol r col =
        Except.error ("Row [" ++ String.singleton r ++
          "] is not a valid row character") ↔ r ∉ ROW_CHARS)
    ∧ (∀ r col, r ∈ ROW_CHARS →
        (isValidRowAndCol r col = Except.error "Invalid column number" ↔
          col = none ∨ ∃ v, col = some v ∧ (v < 1 ∨ v > 12)))
    ∧ (∀ r v, r ∈ ROW_CHARS → 1 ≤ v → v ≤ 12 →
        isValidRowAndCol r (some v) = Except.ok true)
    ∧ isValidRowAndCol 'Z' (some 1) =
        Except.error ("Row [" ++ String.singleton 'Z' ++
          "] is not a valid row character")
    ∧ isValidRowAndCol 'A' (some 13) = Except.error "Invalid column number"
    ∧ isValidRowAndCol 'A' (some 0) = Except.error "Invalid column number"
    ∧ isValidRowAndCol 'A' (some 1) = Except.ok true := by
  refine ⟨?_, ?_, ?_, by rfl, by rfl, by rfl, by rfl⟩
  · intro r col
    constructor
    · intro h
      intro hmem
      unfold isValidRowAndCol at h
      rw [if_neg (by simpa using hmem)] at h
      cases col with
      | none =>
        have h2 : (Except.error "Invalid column number" : Except String Bool) =
            Except.error ("Row [" ++ String.singleton r ++
              "] is not a valid row character") := h
        exact rowMsg_ne_colMsg r (Except.error.inj h2).symm
      | some v =>
        have h2 : (if v < 1 ∨ v > (MAX_COLS : Int) then
            Except.error "Invalid column number"
          else (Except.ok true : Except String Bool)) =
            Except.error ("Row [" ++ String.singleton r ++
              "] is not a valid row character") := h
        by_cases hb : v < 1 ∨ v > (MAX_COLS : Int)
        · rw [if_pos hb] at h2
          exact rowMsg_ne_colMsg r (Except.error.inj h2).symm
        · rw [if_neg hb] at h2
          cases h2
    · intro hmem
      unfold isValidRowAndCol
      rw [if_pos (by simpa using hmem)]
  · intro r col hmem
    unfold isValidRowAndCol
    rw [if_neg (by simpa using hmem)]
    constructor
    · intro h
      cases col with
      | none => exact Or.inl rfl
      | some v =>
        refine Or.inr ⟨v, rfl, ?_⟩
        by_cases hb : v < 1 ∨ v > (MAX_COLS : Int)
        · simpa [MAX_COLS] using hb
        · have h2 : (if v < 1 ∨ v > (MAX_COLS : Int) then
              Except.error "Invalid column number"
            else (Except.ok true : Except String Bool)) =
              Except.error "Invalid column number" := h
          rw [if_neg hb] at h2
          cases h2
    · rintro (rfl | ⟨v, rfl, hv⟩)
      · rfl
      · exact if_pos (by simpa [MAX_COLS] using hv)
  · intro r v hmem h1 h12
    unfold isValidRowAndCol
    rw [if_neg (by simpa using hmem)]
    exact if_neg (by simp [MAX_COLS]; omega)

/-- Witness for C9, instantiating the general clauses at ('Z', 1),
('A', 0) and ('A', 5). -/
theorem claim9_validation_guard_witness :
    (isValidRowAndCol 'Z' (some 1) =
        Except.error ("Row [" ++ String.singleton 'Z' ++
          "] is not a valid row character") ↔ 'Z' ∉ ROW_CHARS)
    ∧ ('A' ∈ ROW_CHARS)
    ∧ (isValidRowAndCol 'A' (some 0) = Except.error "Invalid column number" ↔
        (some (0 : Int) = none ∨ ∃ v, (some (0 : Int)) = some v ∧ (v < 1 ∨ v > 12)))
    ∧ (1 : Int) ≤ 5 ∧ (5 : Int) ≤ 12
    ∧ isValidRowAndCol 'A' (some 5) = Except.ok true :=
  ⟨(claim9_validation_guard).1 'Z' (some 1), by decide,
    (claim9_validation_guard).2.1 'A' (some 0) (by decide),
    by decide, by decide,
    (claim9_validation_guard).2.2.1 'A' 5 (by decide) (by decide) (by decide)⟩

/-- Claim C10: when the row is invalid, the guard raises the invalid-row
error even if the column is also invalid — the row check runs first. -/
theorem claim10_row_precedence (r : Char) (col : Option Int)
    (hrow : r ∉ ROW_CHARS)
    (hcol : col = none ∨ ∃ v, col = some v ∧ (v < 1 ∨ v > 12)) :
    isValidRowAndCol r col =
      Except.error ("Row [" ++ String.singleton r ++
        "] is not a valid row character") ∧
    isValidRowAndCol r col ≠ Except.error "Invalid column number" := by
  have h : isValidRowAndCol r col =
      Except.error ("Row [" ++ String.singleton r ++
        "] is not a valid row character") := by
    unfold isValidRowAndCol
    rw [if_pos (by simpa using hrow)]
  exact ⟨h, by rw [h]; intro hbad; exact rowMsg_ne_colMsg r (Except.error.inj hbad)⟩

/-- Witness for C10 at row 'Z' and column 0. -/
theorem claim10_row_precedence_witness :
    ('Z' ∉ ROW_CHARS) ∧
      (some (0 : Int) = none ∨ ∃ v, some (0 : Int) = some v ∧ (v < 1 ∨ v > 12)) ∧
      (isValidRowAndCol 'Z' (some 0) =
        Except.error ("Row [" ++ String.singleton 'Z' ++
          "] is not a valid row character") ∧
      isValidRowAndCol 'Z' (some 0) ≠ Except.error "Invalid column number") :=
  ⟨by decide, Or.inr ⟨0, rfl, by decide⟩,
    claim10_row_precedence 'Z' (some 0) (by decide)
      (Or.inr ⟨0, rfl, by decide⟩)⟩

/-! ## The self-test -/

/-- Bundled round trip for a valid cell (forward succeeds and the inverse
returns the cell). -/
lemma roundTrip_full (s : Int) (hs : 0 < s) (r : Char) (hr : r ∈ ROW_CHARS)
    (c : Nat) (hc1 : 1 ≤ c) (hc2 : c ≤ 12) :
    ∃ tc, calculateCoordinates s r c = some tc ∧
      calculateRowAndColumn s tc = some (r, c) := by
  obtain ⟨x, hx, hkx⟩ := colMapFacts s hs c hc1 hc2
  obtain ⟨y, hy, hky⟩ := rowMapFacts s hs r hr
  exact roundTrip_aux s hs r c x y hx hy hkx hky hc1 hc2

/-- On a cell that round-trips, the self-test step appends nothing to the
error log. -/
lemma testLayoutStep_good (s : Int) (acc : String × String) (rk : Char)
    (ck : Nat)
    (h : ∃ tc, calculateCoordinates s rk ck = some tc ∧
      calculateRowAndColumn s tc = some (rk, ck)) :
    (testLayoutStep s acc rk ck).2 = acc.2 := by
  obtain ⟨tc, hf, hb⟩ := h
  unfold testLayoutStep
  simp only [hf, hb]
  simp

/-- Folding the self-test step over a list of valid columns leaves the
error log unchanged. -/
lemma foldl_cols_errors (s : Int) (hs : 0 < s) (rk : Char)
    (hrk : rk ∈ ROW_CHARS) :
    ∀ (cols : List Nat), (∀ ck ∈ cols, 1 ≤ ck ∧ ck ≤ 12) →
      ∀ acc : String × String,
        (cols.foldl (fun a ck => testLayoutStep s a rk ck) acc).2 = acc.2 := by
  intro cols
  induction cols with
  | nil => intro _ acc; rfl
  | cons c cs ih =>
    intro h acc
    rw [List.foldl_cons]
    rw [ih (fun ck hck => h ck (List.mem_cons_of_mem _ hck)) _]
    exact testLayoutStep_good s acc rk c
      (roundTrip_full s hs rk hrk c (h c (List.mem_cons_self _ _)).1
        (h c (List.mem_cons_self _ _)).2)

/-- Folding the self-test over lists of valid rows and columns leaves the
error log unchanged. -/
lemma foldl_rows_errors (s : Int) (hs : 0 < s) :
    ∀ (rows : List Char), (∀ rk ∈ rows, rk ∈ ROW_CHARS) →
      ∀ (cols : List Nat), (∀ ck ∈ cols, 1 ≤ ck ∧ ck ≤ 12) →
      ∀ acc : String × String,
        (rows.foldl
          (fun a rk => cols.foldl (fun a ck => testLayoutStep s a rk ck) a)
          acc).2 = acc.2 := by
  intro rows
  induction rows with
  | nil => intro _ _ _ acc; rfl
  | cons r rs ih =>
    intro h cols hcols acc
    rw [List.foldl_cons]
    rw [ih (fun rk hrk => h rk (List.mem_cons_of_mem _ hrk)) cols hcols _]
    exact foldl_cols_errors s hs r (h r (List.mem_cons_self _ _)) cols hcols acc

/-- Claim C4: the self-test over the full 6 × 12 grid finds no mismatch, so
its report starts with the no-errors message, followed by the full step
log. -/
theorem claim4_self_test (s : Int) (hs : 0 < s) :
    ∃ log, testLayout s = "No errors found!\n" ++ log := by
  have h2 : (((ROW_MAP s).map Prod.fst).foldl
      (fun acc rowKey =>
        ((COL_MAP s).map Prod.fst).foldl
          (fun acc colKey => testLayoutStep s acc rowKey colKey) acc)
      ("", "")).2 = "" := by
    apply foldl_rows_errors s hs
    · intro rk hrk
      rw [ROW_MAP_eq] at hrk
      simpa [ROW_CHARS] using hrk
    · intro ck hck
      rw [COL_MAP_eq] at hck
      simp at hck
      omega
  simp only [testLayout]
  rw [h2]
  simp

/-- Witness for C4 at scale 10. -/
theorem claim4_self_test_witness :
    (0 : Int) < 10 ∧ ∃ log, testLayout 10 = "No errors found!\n" ++ log :=
  ⟨by decide, claim4_self_test 10 (by decide)⟩
